import Mathlib

/-!
Shallow embedding of the error-handler and escalation system
(`error-handler.py`): fault events, the bounded in-memory event store,
the sliding-window escalation policy, the persisted alert list, and the
health-monitoring loop.  Python `datetime` values are modelled as
integer time points; an ISO timestamp string is modelled by its parse
result (`Timestamp.valid t` for a string `fromisoformat` accepts,
`Timestamp.malformed s` for one it rejects).  File-system effects are
modelled by explicit state and success flags: the durable error-log
write in `log_error` takes a `log_write_ok` flag (a failed `open`/`write`
raises in Python, modelled as `Except.error`), and the alerts file is
carried as the list it contains.  `datetime.now()` is passed in as an
explicit `now` parameter.
-/

namespace ErrorHandlerModel

/-- ErrorSeverity enum from the source (string values low/medium/high/critical). -/
inductive ErrorSeverity where
  | low | medium | high | critical
  deriving DecidableEq

/-- ErrorType enum from the source. -/
inductive ErrorType where
  | agent_crash | resource_exhaustion | file_conflict | dependency_failure
  | task_timeout | context_drift | system_overload
  deriving DecidableEq

/-- The `.value` string of each ErrorType member. -/
def ErrorType.value : ErrorType → String
  | .agent_crash => "agent_crash"
  | .resource_exhaustion => "resource_exhaustion"
  | .file_conflict => "file_conflict"
  | .dependency_failure => "dependency_failure"
  | .task_timeout => "task_timeout"
  | .context_drift => "context_drift"
  | .system_overload => "system_overload"

/-- An ISO timestamp string, modelled by its parse result: `valid t` is a
string that `datetime.fromisoformat` parses to time point `t`,
`malformed s` is a string it rejects (carrying the exception message). -/
inductive Timestamp where
  | valid (t : Int)
  | malformed (s : String)
  deriving DecidableEq

/-- `datetime.fromisoformat`: succeeds on a valid timestamp string, raises
`ValueError` (modelled as `Except.error`) on a malformed one. -/
def fromisoformat : Timestamp → Except String Int
  | .valid t => .ok t
  | .malformed s => .error s

/-- The error-entry dict built in `log_error` (detail values stringified). -/
structure ErrorEntry where
  timestamp : Timestamp
  type : ErrorType
  severity : ErrorSeverity
  message : String
  agent_id : Option String
  details : List (String × String)
  deriving DecidableEq

/-- One entry of `escalation_triggers`: threshold count and window seconds. -/
structure Trigger where
  threshold : Nat
  time_window : Int
  deriving DecidableEq

/-- The `escalation_triggers` dict fixed in `ErrorHandler.__init__`. -/
def escalation_triggers : ErrorType → Option Trigger
  | .agent_crash => some ⟨3, 300⟩
  | .resource_exhaustion => some ⟨2, 120⟩
  | .file_conflict => some ⟨5, 600⟩
  | .system_overload => some ⟨1, 60⟩
  | _ => none

/-- The sum-comprehension in `should_escalate`: counts entries whose type
matches and whose parsed timestamp is strictly after `cutoff`.  The `and`
short-circuits, so `fromisoformat` is only applied to same-type entries;
its `ValueError` on a malformed same-type timestamp propagates. -/
def countRecent (error_type : ErrorType) (cutoff : Int) :
    List ErrorEntry → Except String Nat
  | [] => .ok 0
  | err :: rest =>
    if err.type = error_type then
      match fromisoformat err.timestamp with
      | .error s => .error s
      | .ok t =>
        match countRecent error_type cutoff rest with
        | .error s => .error s
        | .ok n => .ok (if cutoff < t then n + 1 else n)
    else countRecent error_type cutoff rest

/-- `ErrorHandler.should_escalate`, with the handler's `recent_errors` and
`datetime.now()` made explicit. -/
def should_escalate (recent_errors : List ErrorEntry) (now : Int)
    (error_type : ErrorType) (error_entry : ErrorEntry) : Except String Bool :=
  if error_entry.severity = .critical then .ok true
  else
    match escalation_triggers error_type with
    | none => .ok false
    | some trigger =>
      let cutoff := now - trigger.time_window
      match countRecent error_type cutoff recent_errors with
      | .error s => .error s
      | .ok recent_count => .ok (decide (trigger.threshold ≤ recent_count))

/-- The snapshot dict built by `get_system_snapshot` (psutil samples are
environment inputs, so a snapshot is passed into the transitions). -/
structure SystemSnapshot where
  timestamp : Int
  cpu_percent : Int
  memory_percent : Int
  disk_usage : Int
  deriving DecidableEq

/-- The escalation record built in `escalate_error`. -/
structure Escalation where
  timestamp : Int
  original_error : ErrorEntry
  escalation_reason : String
  suggested_actions : List String
  system_state : SystemSnapshot
  deriving DecidableEq

/-- `ErrorHandler.get_suggested_actions`: the fixed suggestion table with
`dict.get` fallback "Manual investigation required". -/
def get_suggested_actions (error_entry : ErrorEntry) : List String :=
  match error_entry.type with
  | .agent_crash =>
      ["Check agent logs for specific error messages",
       "Verify system resources are sufficient",
       "Consider reducing agent workload",
       "Check for file permission issues",
       "Restart agent with preserved context"]
  | .resource_exhaustion =>
      ["Kill non-essential processes",
       "Increase system swap space",
       "Pause some agents temporarily",
       "Monitor memory usage patterns",
       "Consider upgrading hardware"]
  | .file_conflict =>
      ["Review recent commits for conflicts",
       "Check git status in agent worktrees",
       "Manually resolve merge conflicts",
       "Implement file locking mechanism",
       "Review agent file ownership rules"]
  | .dependency_failure =>
      ["Check task completion status",
       "Verify dependency chain integrity",
       "Consider alternative dependency paths",
       "Update task status manually if needed",
       "Review agent coordination logic"]
  | .system_overload =>
      ["Emergency stop all agents",
       "Check system CPU and memory usage",
       "Close unnecessary applications",
       "Restart system if needed",
       "Reduce number of concurrent agents"]
  | .task_timeout => ["Manual investigation required"]
  | .context_drift => ["Manual investigation required"]

/-- One record of the alerts.json list written by `send_escalation_alert`. -/
structure Alert where
  id : Nat
  timestamp : Int
  type : String
  severity : String
  title : String
  message : String
  details : Escalation
  acknowledged : Bool
  deriving DecidableEq

/-- The alert dict built in `send_escalation_alert`, given the alert list
loaded from the file before the append. -/
def mkAlert (alerts : List Alert) (escalation : Escalation) : Alert :=
  { id := alerts.length + 1
    timestamp := escalation.timestamp
    type := "escalation"
    severity := "high"
    title := "Error Escalated: " ++ escalation.original_error.type.value
    message := escalation.original_error.message
    details := escalation
    acknowledged := false }

/-- `ErrorHandler.send_escalation_alert`: append the new alert, keep only
the last 50 (Python `alerts[-50:]`), and save; returns the saved list. -/
def send_escalation_alert (alerts : List Alert) (escalation : Escalation) :
    List Alert :=
  let alerts2 := alerts ++ [mkAlert alerts escalation]
  if 50 < alerts2.length then alerts2.drop (alerts2.length - 50) else alerts2

/-- The mutable state of the handler: the in-memory ring buffer
`recent_errors`, the in-memory `escalated_issues`, and the contents of
the alerts.json file. -/
structure ErrorHandlerState where
  recent_errors : List ErrorEntry
  escalated_issues : List Escalation
  alerts_file : List Alert
  deriving DecidableEq

/-- A fresh `ErrorHandler()` with an empty alerts file. -/
def initState : ErrorHandlerState := ⟨[], [], []⟩

/-- The escalation record built at the top of `escalate_error`. -/
def mkEscalation (now : Int) (error_entry : ErrorEntry)
    (snapshot : SystemSnapshot) : Escalation :=
  { timestamp := now
    original_error := error_entry
    escalation_reason := "Threshold exceeded or critical severity"
    suggested_actions := get_suggested_actions error_entry
    system_state := snapshot }

/-- `ErrorHandler.escalate_error`: build the escalation record, append it
to `escalated_issues`, write the escalation log, and send the alert.
The escalation-log `open`/`write` has no try/except, so
`escalation_log_write_ok = false` models it raising `OSError`: the
escalation record has already been appended, but `send_escalation_alert`
is never reached and the exception propagates. -/
def escalate_error (s : ErrorHandlerState) (now : Int)
    (error_entry : ErrorEntry) (escalation_log_write_ok : Bool)
    (snapshot : SystemSnapshot) : ErrorHandlerState × Except String Unit :=
  let escalation := mkEscalation now error_entry snapshot
  let s1 := { s with escalated_issues := s.escalated_issues ++ [escalation] }
  if escalation_log_write_ok then
    ({ s1 with
        alerts_file := send_escalation_alert s1.alerts_file escalation },
      .ok ())
  else (s1, .error "OSError: cannot write escalation log")

/-- The ring-buffer update in `log_error`: append, then `pop(0)` once if
the length exceeds 100. -/
def pushRecent (recent : List ErrorEntry) (e : ErrorEntry) :
    List ErrorEntry :=
  let r := recent ++ [e]
  if 100 < r.length then r.tail else r

/-- The error-entry dict built at the top of `log_error` (its timestamp is
`datetime.now().isoformat()`, which always parses back). -/
def mkErrorEntry (now : Int) (error_type : ErrorType)
    (severity : ErrorSeverity) (message : String) (agent_id : Option String)
    (details : List (String × String)) : ErrorEntry :=
  { timestamp := .valid now
    type := error_type
    severity := severity
    message := message
    agent_id := agent_id
    details := details }

/-- `ErrorHandler.log_error`: build the entry, append it to the ring
buffer, write the durable log (`log_write_ok = false` models the write
raising `OSError`, which aborts the rest of the method), then evaluate
`should_escalate` and escalate on true.  Returns the resulting state and
the outcome (`Except.error` models an exception propagating to the
caller; the state mutations made before the raise persist). -/
def log_error (s : ErrorHandlerState) (now : Int) (error_type : ErrorType)
    (severity : ErrorSeverity) (message : String) (agent_id : Option String)
    (details : List (String × String)) (log_write_ok : Bool)
    (escalation_log_write_ok : Bool) (snapshot : SystemSnapshot) :
    ErrorHandlerState × Except String Unit :=
  let error_entry := mkErrorEntry now error_type severity message agent_id details
  let s1 : ErrorHandlerState :=
    { s with recent_errors := pushRecent s.recent_errors error_entry }
  if log_write_ok then
    match should_escalate s1.recent_errors now error_type error_entry with
    | .error e => (s1, .error e)
    | .ok true =>
      escalate_error s1 now error_entry escalation_log_write_ok snapshot
    | .ok false => (s1, .ok ())
  else (s1, .error "OSError: cannot write error log")

/-- One argument tuple for a `log_error` call, used to model sequences of
`record` calls. -/
structure RecordInput where
  now : Int
  error_type : ErrorType
  severity : ErrorSeverity
  message : String
  agent_id : Option String
  details : List (String × String)
  log_write_ok : Bool
  escalation_log_write_ok : Bool
  snapshot : SystemSnapshot
  deriving DecidableEq

/-- The error entry a given `log_error` call appends to the ring buffer. -/
def entryOfInput (i : RecordInput) : ErrorEntry :=
  mkErrorEntry i.now i.error_type i.severity i.message i.agent_id i.details

/-- Run a sequence of `log_error` calls, keeping the state each call
leaves behind (Python state mutations persist even when the call raises). -/
def runRecords (s : ErrorHandlerState) : List RecordInput → ErrorHandlerState
  | [] => s
  | i :: is =>
    runRecords (log_error s i.now i.error_type i.severity i.message
      i.agent_id i.details i.log_write_ok i.escalation_log_write_ok
      i.snapshot).1 is

/-- Run a sequence of `send_escalation_alert` calls against the alerts
file contents. -/
def runAppends (alerts : List Alert) : List Escalation → List Alert
  | [] => alerts
  | e :: es => runAppends (send_escalation_alert alerts e) es

/-- The alerts created, in order, by a sequence of `send_escalation_alert`
calls starting from the given file contents. -/
def createdAlerts (alerts : List Alert) : List Escalation → List Alert
  | [] => []
  | e :: es => mkAlert alerts e :: createdAlerts (send_escalation_alert alerts e) es

/-- First `fromisoformat` failure among same-type entries, in scan order:
the exception `should_escalate`'s counting comprehension would raise. -/
def firstSameKindParseFailure (error_type : ErrorType) :
    List ErrorEntry → Option String
  | [] => none
  | err :: rest =>
    if err.type = error_type then
      match fromisoformat err.timestamp with
      | .error s => some s
      | .ok _ => firstSameKindParseFailure error_type rest
    else firstSameKindParseFailure error_type rest

/-- Pure value of the counting comprehension when no same-type timestamp
is malformed: entries of the given type with timestamp strictly after
`cutoff` (the code imposes no upper bound). -/
def strictWindowCount (recents : List ErrorEntry) (error_type : ErrorType)
    (cutoff : Int) : Nat :=
  (recents.filter (fun e =>
    e.type == error_type &&
      match e.timestamp with
      | .valid t => decide (cutoff < t)
      | .malformed _ => false)).length

/-- Count following the specification sentence word for word: events of
the given kind with timestamp in the closed interval from `lo` to `hi`.
Used only to compare the spec's claim with the code's behaviour. -/
def specInclusiveWindowCount (recents : List ErrorEntry)
    (error_type : ErrorType) (lo hi : Int) : Nat :=
  (recents.filter (fun e =>
    e.type == error_type &&
      match e.timestamp with
      | .valid t => decide (lo ≤ t) && decide (t ≤ hi)
      | .malformed _ => false)).length

/-- Liveness probe for one agent inside `monitor_system_health`:
`pid_file = none` models a missing pid file, `some (Except.error e)` a
raise while opening/parsing it, `some (Except.ok pid)` a successful read;
`pid_exists` is the `psutil.pid_exists(pid)` answer. -/
structure AgentProbe where
  agent : String
  pid_file : Option (Except String Int)
  pid_exists : Bool

/-- Conflict probe for one agent worktree in `check_file_conflicts`:
whether the worktree directory exists, and the outcome of the
`git status --porcelain` subprocess (return code and stdout lines). -/
structure WorktreeProbe where
  agent : String
  worktree_exists : Bool
  git_status : Except String (Int × List String)

/-- Environment of one tick of `monitor_system_health`: the psutil
samples (which may raise), the per-agent probes, and the behaviour of
the durable log write during the tick. -/
structure TickEnv where
  now : Int
  cpu_percent : Except String Int
  memory_percent : Except String (Int × Int)
  agent_probes : List AgentProbe
  worktree_probes : List WorktreeProbe
  log_write_ok : Bool
  escalation_log_write_ok : Bool
  snapshot : SystemSnapshot

/-- The CPU-usage check of a tick: sample `psutil.cpu_percent` (which may
raise) and log a SystemOverload/High event above 90. -/
def cpuCheck (s : ErrorHandlerState) (env : TickEnv) :
    ErrorHandlerState × Except String Unit :=
  match env.cpu_percent with
  | .error e => (s, .error e)
  | .ok cpu =>
    if 90 < cpu then
      log_error s env.now .system_overload .high
        ("CPU usage critically high: " ++ toString cpu ++ "%") none
        [("cpu_percent", toString cpu)] env.log_write_ok
        env.escalation_log_write_ok env.snapshot
    else (s, .ok ())

/-- The memory-usage check of a tick: sample `psutil.virtual_memory`
(which may raise) and log a ResourceExhaustion/High event above 85. -/
def memoryCheck (s : ErrorHandlerState) (env : TickEnv) :
    ErrorHandlerState × Except String Unit :=
  match env.memory_percent with
  | .error e => (s, .error e)
  | .ok (pct, available_mb) =>
    if 85 < pct then
      log_error s env.now .resource_exhaustion .high
        ("Memory usage critically high: " ++ toString pct ++ "%") none
        [("memory_percent", toString pct),
         ("available_mb", toString available_mb)]
        env.log_write_ok env.escalation_log_write_ok env.snapshot
    else (s, .ok ())

/-- The liveness check for one agent: the whole body, including the
`log_error` call, sits in a try/except-pass, so a raise is swallowed but
state mutations made before it persist. -/
def agentCheck (s : ErrorHandlerState) (env : TickEnv) (p : AgentProbe) :
    ErrorHandlerState :=
  match p.pid_file with
  | none => s
  | some (.error _) => s
  | some (.ok pid) =>
    if p.pid_exists then s
    else
      (log_error s env.now .agent_crash .medium
        ("Agent " ++ p.agent ++ " process crashed (PID: " ++ toString pid ++ ")")
        (some p.agent) [("crashed_pid", toString pid)]
        env.log_write_ok env.escalation_log_write_ok env.snapshot).1

/-- The per-agent liveness pass of a tick. -/
def agentChecks (s : ErrorHandlerState) (env : TickEnv) : ErrorHandlerState :=
  env.agent_probes.foldl (fun s p => agentCheck s env p) s

/-- `check_file_conflicts` for one worktree: run `git status --porcelain`
inside a try/except-pass, filter stdout lines starting with "UU " or
"AA ", and log a FileConflict/Medium event if any remain. -/
def conflictCheck (s : ErrorHandlerState) (env : TickEnv)
    (p : WorktreeProbe) : ErrorHandlerState :=
  if p.worktree_exists then
    match p.git_status with
    | .error _ => s
    | .ok (returncode, lines) =>
      if returncode = 0 then
        let conflicts := lines.filter (fun l =>
          l.startsWith "UU " || l.startsWith "AA ")
        if conflicts.isEmpty then s
        else
          (log_error s env.now .file_conflict .medium
            ("Git conflicts detected in " ++ p.agent) (some p.agent)
            [("conflicts", toString conflicts)]
            env.log_write_ok env.escalation_log_write_ok env.snapshot).1
      else s
  else s

/-- `ErrorHandler.check_file_conflicts` over all worktree probes. -/
def check_file_conflicts (s : ErrorHandlerState) (env : TickEnv) :
    ErrorHandlerState :=
  env.worktree_probes.foldl (fun s p => conflictCheck s env p) s

/-- One iteration of the `while True` body of `monitor_system_health`.
All four checks run inside a single try block, so an exception escaping
the CPU or memory check (the agent and conflict checks swallow their own)
skips the remaining checks; the except arm sleeps 60 instead of 30.
Returns the state and the sleep the iteration ends with. -/
def tick (s : ErrorHandlerState) (env : TickEnv) :
    ErrorHandlerState × Nat :=
  match cpuCheck s env with
  | (s1, .error _) => (s1, 60)
  | (s1, .ok _) =>
    match memoryCheck s1 env with
    | (s2, .error _) => (s2, 60)
    | (s2, .ok _) =>
      let s3 := agentChecks s2 env
      let s4 := check_file_conflicts s3 env
      (s4, 30)

/-- `ErrorHandler.monitor_system_health`, unrolled over a list of tick
environments: every environment yields exactly one tick — the except arm
catches any tick failure, so the loop never terminates early. -/
def monitor_system_health (s : ErrorHandlerState) :
    List TickEnv → ErrorHandlerState × List Nat
  | [] => (s, [])
  | env :: envs =>
    let r := tick s env
    let rest := monitor_system_health r.1 envs
    (rest.1, r.2 :: rest.2)

/-! Concrete fixtures used by witnesses and counterexamples. -/

/-- A fixed snapshot value standing for one `get_system_snapshot` sample. -/
def snap0 : SystemSnapshot := ⟨0, 10, 20, 30⟩

/-- An AgentCrash/Medium event recorded at time 0. -/
def e_old : ErrorEntry := mkErrorEntry 0 .agent_crash .medium "crash" none []

/-- An AgentCrash/Medium event recorded at time 200. -/
def e_mid : ErrorEntry := mkErrorEntry 200 .agent_crash .medium "crash" none []

/-- An AgentCrash/Medium event recorded at time 300. -/
def e_new : ErrorEntry := mkErrorEntry 300 .agent_crash .medium "crash" none []

/-- A Critical event of a kind that has no escalation rule. -/
def e_crit : ErrorEntry := mkErrorEntry 5 .task_timeout .critical "boom" none []

/-- A TaskTimeout/Low event (a kind missing from the suggestion table). -/
def e_tt : ErrorEntry := mkErrorEntry 0 .task_timeout .low "slow" none []

/-- A stored AgentCrash entry whose timestamp string does not parse. -/
def e_malformed : ErrorEntry :=
  ⟨.malformed "invalid isoformat string", .agent_crash, .medium, "old", none, []⟩

/-- A stored ResourceExhaustion entry whose timestamp string does not parse. -/
def e_malformed2 : ErrorEntry :=
  ⟨.malformed "ValueError: bad timestamp", .resource_exhaustion, .low, "m", none, []⟩

/-- A SystemOverload/High event used to build alert fixtures. -/
def issueEntry : ErrorEntry := mkErrorEntry 1 .system_overload .high "overload" none []

/-- A concrete escalation record. -/
def esc1 : Escalation := mkEscalation 1 issueEntry snap0

/-- A concrete alert record. -/
def dummyAlert : Alert := mkAlert [] esc1

/-- A tick environment in which the CPU probe raises while memory sits
over its threshold with the durable log writable. -/
def envBoom : TickEnv :=
  { now := 0
    cpu_percent := .error "boom"
    memory_percent := .ok (90, 512)
    agent_probes := []
    worktree_probes := []
    log_write_ok := true
    escalation_log_write_ok := true
    snapshot := snap0 }

/-! Helper lemmas shared by the claim theorems. -/

/-- A suffix stays a suffix after appending the same tail to both sides. -/
theorem suffix_append_same {α : Type} {l1 l2 : List α} (t : List α)
    (h : l1 <:+ l2) : l1 ++ t <:+ l2 ++ t := by
  obtain ⟨p, hp⟩ := h
  exact ⟨p, by rw [← List.append_assoc, hp]⟩

/-- `send_escalation_alert` in closed form: append the new alert and keep
the last 50 entries. -/
theorem send_escalation_alert_eq (alerts : List Alert) (esc : Escalation) :
    send_escalation_alert alerts esc =
      (alerts ++ [mkAlert alerts esc]).drop ((alerts.length + 1) - 50) := by
  unfold send_escalation_alert
  by_cases h : 50 < (alerts ++ [mkAlert alerts esc]).length
  · rw [if_pos h]
    congr 1
    simp only [List.length_append, List.length_cons, List.length_nil]
  · simp only [if_neg h]
    simp only [List.length_append, List.length_cons, List.length_nil] at h
    have h0 : alerts.length + 1 - 50 = 0 := by omega
    rw [h0, List.drop_zero]

/-- The alert just built is always the last element of the saved list. -/
theorem send_escalation_alert_getLast (alerts : List Alert) (esc : Escalation) :
    (send_escalation_alert alerts esc).getLast? = some (mkAlert alerts esc) := by
  rw [send_escalation_alert_eq,
    List.drop_append_of_le_length (by omega : alerts.length + 1 - 50 ≤ alerts.length)]
  exact List.getLast?_concat _

/-- Length of the saved alert list after one append. -/
theorem send_escalation_alert_length (alerts : List Alert) (esc : Escalation) :
    (send_escalation_alert alerts esc).length =
      if alerts.length < 50 then alerts.length + 1 else 50 := by
  rw [send_escalation_alert_eq]
  simp only [List.length_drop, List.length_append, List.length_cons,
    List.length_nil]
  split <;> omega

/-- The ring-buffer update only ever drops from the front. -/
theorem pushRecent_suffix (recent : List ErrorEntry) (e : ErrorEntry) :
    pushRecent recent e <:+ recent ++ [e] := by
  unfold pushRecent
  by_cases h : 100 < (recent ++ [e]).length
  · simp only [if_pos h]
    exact List.tail_suffix _
  · simp only [if_neg h]
    exact List.suffix_refl _

/-- Length of the ring buffer after one append. -/
theorem pushRecent_length (recent : List ErrorEntry) (e : ErrorEntry) :
    (pushRecent recent e).length =
      if recent.length < 100 then recent.length + 1 else recent.length := by
  unfold pushRecent
  by_cases h : 100 < (recent ++ [e]).length
  · rw [if_pos h, List.length_tail]
    simp only [List.length_append, List.length_cons, List.length_nil] at h ⊢
    rw [if_neg (by omega)]
    omega
  · rw [if_neg h]
    simp only [List.length_append, List.length_cons, List.length_nil] at h ⊢
    rw [if_pos (by omega)]

/-- The newly appended entry is the last element of the ring buffer. -/
theorem pushRecent_getLast (recent : List ErrorEntry) (e : ErrorEntry) :
    (pushRecent recent e).getLast? = some e := by
  unfold pushRecent
  by_cases h : 100 < (recent ++ [e]).length
  · simp only [if_pos h]
    cases recent with
    | nil => simp at h
    | cons a as =>
      simp only [List.cons_append, List.tail_cons]
      exact List.getLast?_concat _
  · simp only [if_neg h]
    exact List.getLast?_concat _

/-- Whatever `log_error` goes on to do, the ring buffer it leaves behind
is exactly the input buffer with the new entry pushed. -/
theorem log_error_recent (s : ErrorHandlerState) (now : Int)
    (error_type : ErrorType) (severity : ErrorSeverity) (message : String)
    (agent_id : Option String) (details : List (String × String))
    (log_write_ok : Bool) (escalation_log_write_ok : Bool)
    (snapshot : SystemSnapshot) :
    (log_error s now error_type severity message agent_id details
        log_write_ok escalation_log_write_ok snapshot).1.recent_errors =
      pushRecent s.recent_errors
        (mkErrorEntry now error_type severity message agent_id details) := by
  unfold log_error
  cases log_write_ok with
  | false => rfl
  | true =>
    simp only [if_true]
    split <;>
      first
        | rfl
        | (unfold escalate_error; cases escalation_log_write_ok <;> rfl)

/-- When the scan meets a malformed same-type timestamp, the counting
comprehension raises exactly that parse failure. -/
theorem countRecent_error_of_malformed (error_type : ErrorType) (cutoff : Int) :
    ∀ (l : List ErrorEntry) (msg : String),
      firstSameKindParseFailure error_type l = some msg →
      countRecent error_type cutoff l = .error msg := by
  intro l
  induction l with
  | nil => intro msg h; simp [firstSameKindParseFailure] at h
  | cons err rest ih =>
    intro msg h
    by_cases hty : err.type = error_type
    · cases hts : err.timestamp with
      | malformed s =>
        simp only [firstSameKindParseFailure, if_pos hty, hts,
          fromisoformat, Option.some.injEq] at h
        simp [countRecent, hty, hts, fromisoformat, h]
      | valid t =>
        simp only [firstSameKindParseFailure, if_pos hty, hts,
          fromisoformat] at h
        simp [countRecent, hty, hts, fromisoformat, ih msg h]
    · simp only [firstSameKindParseFailure, if_neg hty] at h
      simp [countRecent, hty, ih msg h]

/-- When no same-type timestamp is malformed, the counting comprehension
returns the strict-window count without raising. -/
theorem countRecent_ok_of_no_malformed (error_type : ErrorType) (cutoff : Int) :
    ∀ l : List ErrorEntry,
      firstSameKindParseFailure error_type l = none →
      countRecent error_type cutoff l =
        .ok (strictWindowCount l error_type cutoff) := by
  intro l
  induction l with
  | nil => intro _; simp [countRecent, strictWindowCount]
  | cons err rest ih =>
    intro h
    by_cases hty : err.type = error_type
    · cases hts : err.timestamp with
      | malformed s =>
        simp [firstSameKindParseFailure, if_pos hty, hts, fromisoformat] at h
      | valid t =>
        simp only [firstSameKindParseFailure, if_pos hty, hts,
          fromisoformat] at h
        simp only [countRecent, if_pos hty, hts, fromisoformat, ih h]
        simp only [strictWindowCount, List.filter_cons, hty, hts]
        by_cases hct : cutoff < t <;> simp [hct]
    · simp only [firstSameKindParseFailure, if_neg hty] at h
      simp only [countRecent, if_neg hty, ih h]
      simp [strictWindowCount, List.filter_cons, hty]

/-! Claim theorems. -/

/-- C2: for every FaultEvent with severity Critical, `should_escalate`
returns true, regardless of the contents of the event store and
regardless of whether the event's kind has a configured escalation
rule. -/
theorem critical_always_escalates (recents : List ErrorEntry) (now : Int)
    (error_type : ErrorType) (error_entry : ErrorEntry)
    (h : error_entry.severity = .critical) :
    should_escalate recents now error_type error_entry = .ok true := by
  simp [should_escalate, h]

/-- C2 witness: a Critical event of a rule-less kind escalates even with a
malformed entry sitting in the store. -/
theorem critical_always_escalates_witness :
    should_escalate [e_malformed] 5 .task_timeout e_crit = .ok true :=
  critical_always_escalates [e_malformed] 5 .task_timeout e_crit rfl

/-- C10: the alert written by `send_escalation_alert` for any escalation
carries the fixed severity string "high", whatever the severity of the
triggering event (in particular for a Critical trigger); alerts are only
created when the escalation-log write succeeds, so that is the path
shown. -/
theorem alert_severity_always_high (s : ErrorHandlerState) (now : Int)
    (error_entry : ErrorEntry) (snapshot : SystemSnapshot) :
    (((escalate_error s now error_entry true
          snapshot).1.alerts_file.getLast?).map Alert.severity) =
      some "high" := by
  simp [escalate_error, send_escalation_alert_getLast, mkAlert]

/-- C8 (amended): when the escalation-log write succeeds, each
`escalate_error` call appends exactly one new alert (the last element of
the saved list, built from the escalation record), the alert's details
carry the triggering event as `original_error`, and exactly one
escalation record is appended; but when the escalation-log write raises,
the escalation record is still appended while no alert is produced — the
alerts file is untouched and the exception propagates. -/
theorem escalate_error_one_alert (s : ErrorHandlerState) (now : Int)
    (error_entry : ErrorEntry) (snapshot : SystemSnapshot) :
    ((escalate_error s now error_entry true snapshot).1.alerts_file =
      (s.alerts_file ++
        [mkAlert s.alerts_file (mkEscalation now error_entry snapshot)]).drop
        ((s.alerts_file.length + 1) - 50) ∧
     (escalate_error s now error_entry true snapshot).1.alerts_file.getLast? =
      some (mkAlert s.alerts_file (mkEscalation now error_entry snapshot)) ∧
     (mkAlert s.alerts_file
        (mkEscalation now error_entry snapshot)).details.original_error =
      error_entry ∧
     (escalate_error s now error_entry true snapshot).1.escalated_issues =
      s.escalated_issues ++ [mkEscalation now error_entry snapshot] ∧
     (escalate_error s now error_entry true snapshot).2 = .ok ()) ∧
    ((escalate_error s now error_entry false snapshot).1.alerts_file =
      s.alerts_file ∧
     (escalate_error s now error_entry false snapshot).1.escalated_issues =
      s.escalated_issues ++ [mkEscalation now error_entry snapshot] ∧
     (escalate_error s now error_entry false snapshot).2 =
      Except.error "OSError: cannot write escalation log") := by
  refine ⟨⟨?_, ?_, rfl, rfl, rfl⟩, rfl, rfl, rfl⟩
  · simp [escalate_error, send_escalation_alert_eq]
  · simp [escalate_error, send_escalation_alert_getLast]

/-- C8 counterexample: a concrete `escalate_error` call whose
escalation-log write raises appends the escalation record but produces
no alert at all — refuting "every escalation produces exactly one new
Alert appended to the AlertStore". -/
theorem escalation_log_failure_counterexample :
    (escalate_error initState 3 issueEntry false snap0).1.alerts_file = [] ∧
    (escalate_error initState 3 issueEntry false snap0).1.escalated_issues =
      [mkEscalation 3 issueEntry snap0] ∧
    (escalate_error initState 3 issueEntry false snap0).2 =
      Except.error "OSError: cannot write escalation log" :=
  ⟨rfl, rfl, rfl⟩

/-- C9 (amended): `get_suggested_actions` is total over the closed fault
kinds with a non-empty fixed list for every kind, and the kinds missing
from the table get exactly the single fallback entry — whose text is
"Manual investigation required" with a capital M, not the lowercase
string the claim quotes. -/
theorem get_suggested_actions_total (error_entry : ErrorEntry) :
    get_suggested_actions error_entry ≠ [] ∧
    ((error_entry.type = .task_timeout ∨ error_entry.type = .context_drift) ↔
      get_suggested_actions error_entry = ["Manual investigation required"]) := by
  obtain ⟨ts, ty, sev, msg, aid, det⟩ := error_entry
  cases ty <;> simp [get_suggested_actions]

/-- C9 counterexample: for a kind outside the table the fallback entry is
"Manual investigation required", which differs from the claim's quoted
string "manual investigation required". -/
theorem fallback_capitalization_counterexample :
    get_suggested_actions e_tt = ["Manual investigation required"] ∧
    get_suggested_actions e_tt ≠ ["manual investigation required"] := by
  decide

/-- C5 (amended): a stored same-kind event whose timestamp string fails
to parse is not excluded from the count — `should_escalate` propagates
the `ValueError` (modelled as `Except.error`) whenever the event under
evaluation is not Critical and its kind has a configured rule. -/
theorem malformed_timestamp_propagates (recents : List ErrorEntry)
    (now : Int) (error_type : ErrorType) (error_entry : ErrorEntry)
    (trigger : Trigger) (msg : String)
    (hsev : error_entry.severity ≠ .critical)
    (hrule : escalation_triggers error_type = some trigger)
    (hmal : firstSameKindParseFailure error_type recents = some msg) :
    should_escalate recents now error_type error_entry = .error msg := by
  have hcount :=
    countRecent_error_of_malformed error_type (now - trigger.time_window)
      recents msg hmal
  simp [should_escalate, hsev, hrule, hcount]

/-- C5 witness: a concrete store holding one malformed AgentCrash entry
makes `should_escalate` raise that entry's parse failure. -/
theorem malformed_timestamp_propagates_witness :
    should_escalate [e_malformed] 400 .agent_crash e_mid =
      Except.error "invalid isoformat string" :=
  malformed_timestamp_propagates [e_malformed] 400 .agent_crash e_mid
    ⟨3, 300⟩ "invalid isoformat string" (by decide) rfl rfl

/-- C5 counterexample: the claim predicts that a malformed stored entry
is excluded (here yielding `.ok false`, count 0 below threshold 2) and
that no exception is raised; the code instead raises the parse error. -/
theorem malformed_not_excluded_counterexample :
    should_escalate [e_malformed2] 100 .resource_exhaustion
        (mkErrorEntry 100 .resource_exhaustion .low "n" none []) =
      Except.error "ValueError: bad timestamp" := by
  rfl

/-- C1 (amended): for a recorded non-Critical event whose same-kind
stored timestamps all parse, `should_escalate` looks up the rule for the
event's kind — no rule means false — and otherwise returns true exactly
when the number of same-kind events with timestamp STRICTLY after
now − window (the code imposes no upper bound) reaches the threshold;
and `log_error` evaluates the policy on the buffer with the just-recorded
event already pushed, so that event is always in the scanned store. -/
theorem should_escalate_strict_window :
    (∀ (recents : List ErrorEntry) (now : Int) (error_type : ErrorType)
        (error_entry : ErrorEntry),
        error_entry.severity ≠ .critical →
        firstSameKindParseFailure error_type recents = none →
        should_escalate recents now error_type error_entry =
          .ok (match escalation_triggers error_type with
               | none => false
               | some trigger =>
                 decide (trigger.threshold ≤
                   strictWindowCount recents error_type
                     (now - trigger.time_window)))) ∧
    (∀ (recent : List ErrorEntry) (e : ErrorEntry),
        (pushRecent recent e).getLast? = some e) := by
  constructor
  · intro recents now error_type error_entry hsev hnm
    cases hrule : escalation_triggers error_type with
    | none => simp [should_escalate, hsev, hrule]
    | some trigger =>
      simp [should_escalate, hsev, hrule,
        countRecent_ok_of_no_malformed error_type
          (now - trigger.time_window) recents hnm]
  · exact pushRecent_getLast

/-- C1 witness: two AgentCrash events at times 0 and 200, evaluated at
time 250 with window 300 — both fall strictly after the cutoff −50, so
the count is 2, under the threshold 3. -/
theorem should_escalate_strict_window_witness :
    should_escalate [e_old, e_mid] 250 .agent_crash e_mid =
      .ok (match escalation_triggers .agent_crash with
           | none => false
           | some trigger =>
             decide (trigger.threshold ≤
               strictWindowCount [e_old, e_mid] .agent_crash
                 (250 - trigger.time_window))) :=
  should_escalate_strict_window.1 [e_old, e_mid] 250 .agent_crash e_mid
    (by decide) (by decide)

/-- C1 counterexample: with rule AgentCrash 3/300 and events at times 0,
200, 300 evaluated at now = 300, the claim's closed interval
[now − window, now] contains all three (count 3 ≥ 3, so the claim says
true), but the code counts strictly after the cutoff 0, finds 2, and
returns false. -/
theorem inclusive_window_counterexample :
    escalation_triggers .agent_crash = some ⟨3, 300⟩ ∧
    specInclusiveWindowCount [e_old, e_mid, e_new] .agent_crash
        (300 - 300) 300 = 3 ∧
    should_escalate [e_old, e_mid, e_new] 300 .agent_crash e_new =
      .ok false :=
  ⟨rfl, by decide, rfl⟩

/-- C6 (amended): when the durable log write raises, `log_error` has
already appended the event to the in-memory ring buffer, but the
exception propagates to the caller and policy evaluation is skipped —
the escalated issues and the alerts file are left untouched. -/
theorem log_write_failure_behavior (s : ErrorHandlerState) (now : Int)
    (error_type : ErrorType) (severity : ErrorSeverity) (message : String)
    (agent_id : Option String) (details : List (String × String))
    (escalation_log_write_ok : Bool) (snapshot : SystemSnapshot) :
    (log_error s now error_type severity message agent_id details false
        escalation_log_write_ok snapshot).1.recent_errors =
      pushRecent s.recent_errors
        (mkErrorEntry now error_type severity message agent_id details) ∧
    (log_error s now error_type severity message agent_id details false
        escalation_log_write_ok snapshot).1.escalated_issues =
      s.escalated_issues ∧
    (log_error s now error_type severity message agent_id details false
        escalation_log_write_ok snapshot).1.alerts_file = s.alerts_file ∧
    (log_error s now error_type severity message agent_id details false
        escalation_log_write_ok snapshot).2 =
      Except.error "OSError: cannot write error log" :=
  ⟨rfl, rfl, rfl, rfl⟩

/-- C6 counterexample: a Critical event (which `should_escalate` would
immediately escalate) recorded while the durable write fails leaves the
event in the buffer but produces no escalation and no alert, and the
call itself raises — contradicting "policy evaluation still proceeds"
and "never fatal to the caller". -/
theorem write_failure_blocks_escalation_counterexample :
    should_escalate
        (log_error initState 7 .agent_crash .critical "agent died" none []
          false true snap0).1.recent_errors 7 .agent_crash
        (mkErrorEntry 7 .agent_crash .critical "agent died" none []) =
      .ok true ∧
    (log_error initState 7 .agent_crash .critical "agent died" none []
        false true snap0).1.escalated_issues = [] ∧
    (log_error initState 7 .agent_crash .critical "agent died" none []
        false true snap0).1.alerts_file = [] ∧
    (log_error initState 7 .agent_crash .critical "agent died" none []
        false true snap0).2 = Except.error "OSError: cannot write error log" :=
  ⟨rfl, rfl, rfl, rfl⟩

/-- C7 (amended): the four checks share a single try block, so an
exception escaping the CPU probe or its logging aborts the whole tick
body — the remaining checks of that tick do not run (the state is
returned unchanged) — while the loop itself survives: the except arm
sleeps the 60-second backoff and every tick environment yields exactly
one iteration. -/
theorem tick_abort_behavior :
    (∀ (s : ErrorHandlerState) (env : TickEnv) (e : String),
        env.cpu_percent = Except.error e → tick s env = (s, 60)) ∧
    (∀ (s : ErrorHandlerState) (envs : List TickEnv),
        (monitor_system_health s envs).2.length = envs.length) := by
  constructor
  · intro s env e h
    simp [tick, cpuCheck, h]
  · intro s envs
    induction envs generalizing s with
    | nil => simp [monitor_system_health]
    | cons env envs ih => simp [monitor_system_health, ih]

/-- C7 witness: a tick whose CPU probe raises ends with the 60-second
backoff and leaves the handler state untouched. -/
theorem tick_abort_behavior_witness :
    tick initState envBoom = (initState, 60) :=
  tick_abort_behavior.1 initState envBoom "boom" rfl

/-- C7 counterexample: in `envBoom` the memory probe reports 90 % (over
the 85 % threshold, and running the memory check alone would record a
ResourceExhaustion event), yet because the CPU probe raised first the
tick records nothing — the remaining checks of the tick were prevented
from executing, contradicting the claim. -/
theorem tick_single_try_counterexample :
    envBoom.memory_percent = Except.ok (90, 512) ∧
    (memoryCheck initState envBoom).1.recent_errors.length = 1 ∧
    (tick initState envBoom).1.recent_errors = [] ∧
    (tick initState envBoom).2 = 60 :=
  ⟨rfl, rfl, rfl, rfl⟩

/-- Ring-buffer length after a sequence of `log_error` calls. -/
theorem runRecords_length (inputs : List RecordInput) :
    ∀ s : ErrorHandlerState, s.recent_errors.length ≤ 100 →
      (runRecords s inputs).recent_errors.length =
        min (s.recent_errors.length + inputs.length) 100 := by
  induction inputs with
  | nil => intro s h; simp [runRecords]; omega
  | cons i is ih =>
    intro s h
    simp only [runRecords, List.length_cons]
    have h2 : (log_error s i.now i.error_type i.severity i.message
        i.agent_id i.details i.log_write_ok i.escalation_log_write_ok
        i.snapshot).1.recent_errors.length =
        if s.recent_errors.length < 100 then s.recent_errors.length + 1
        else s.recent_errors.length := by
      rw [log_error_recent]
      exact pushRecent_length _ _
    rw [ih _ (by rw [h2]; split <;> omega), h2]
    split <;> omega

/-- The ring buffer after a sequence of `log_error` calls is a suffix of
the full entry history (eviction is oldest-first, order preserved). -/
theorem runRecords_suffix (inputs : List RecordInput) :
    ∀ s : ErrorHandlerState,
      (runRecords s inputs).recent_errors <:+
        s.recent_errors ++ inputs.map entryOfInput := by
  induction inputs with
  | nil =>
    intro s
    simp only [runRecords, List.map_nil, List.append_nil]
    exact List.suffix_refl _
  | cons i is ih =>
    intro s
    simp only [runRecords, List.map_cons]
    have h1 : (log_error s i.now i.error_type i.severity i.message
        i.agent_id i.details i.log_write_ok i.escalation_log_write_ok
        i.snapshot).1.recent_errors <:+
        s.recent_errors ++ [entryOfInput i] := by
      rw [log_error_recent]
      exact pushRecent_suffix _ _
    have h3 := suffix_append_same (is.map entryOfInput) h1
    have h4 := (ih (log_error s i.now i.error_type i.severity i.message
      i.agent_id i.details i.log_write_ok i.escalation_log_write_ok
      i.snapshot).1).trans h3
    simpa [List.append_assoc] using h4

/-- Alert-list length after a sequence of `send_escalation_alert` calls. -/
theorem runAppends_length (escs : List Escalation) :
    ∀ alerts : List Alert, alerts.length ≤ 50 →
      (runAppends alerts escs).length = min (alerts.length + escs.length) 50 := by
  induction escs with
  | nil => intro alerts h; simp [runAppends]; omega
  | cons e es ih =>
    intro alerts h
    simp only [runAppends, List.length_cons]
    have h2 := send_escalation_alert_length alerts e
    rw [ih _ (by rw [h2]; split <;> omega), h2]
    split <;> omega

/-- The alerts file after a sequence of `send_escalation_alert` calls is
a suffix of the full alert history (eviction is oldest-first, order
preserved). -/
theorem runAppends_suffix (escs : List Escalation) :
    ∀ alerts : List Alert,
      runAppends alerts escs <:+ alerts ++ createdAlerts alerts escs := by
  induction escs with
  | nil =>
    intro alerts
    simp only [runAppends, createdAlerts, List.append_nil]
    exact List.suffix_refl _
  | cons e es ih =>
    intro alerts
    simp only [runAppends, createdAlerts]
    have h1 : send_escalation_alert alerts e <:+
        alerts ++ [mkAlert alerts e] := by
      rw [send_escalation_alert_eq]
      exact List.drop_suffix _ _
    have h3 := suffix_append_same
      (createdAlerts (send_escalation_alert alerts e) es) h1
    have h4 := (ih (send_escalation_alert alerts e)).trans h3
    simpa [List.append_assoc] using h4

/-- C3: after any sequence of `log_error` calls from a fresh handler the
ring buffer holds min(n, 100) ≤ 100 entries and is a suffix of the full
entry history; after any sequence of `send_escalation_alert` calls from
an empty alerts file the list holds min(n, 50) ≤ 50 alerts and is a
suffix of the full alert history — eviction is strictly oldest-first and
insertion order of the survivors is preserved in both stores. -/
theorem bounded_stores :
    (∀ inputs : List RecordInput,
        (runRecords initState inputs).recent_errors.length =
          min inputs.length 100 ∧
        (runRecords initState inputs).recent_errors <:+
          inputs.map entryOfInput) ∧
    (∀ escs : List Escalation,
        (runAppends [] escs).length = min escs.length 50 ∧
        runAppends [] escs <:+ createdAlerts [] escs) := by
  constructor
  · intro inputs
    refine ⟨?_, ?_⟩
    · have h := runRecords_length inputs initState (by simp [initState])
      simpa [initState] using h
    · have h := runRecords_suffix inputs initState
      simpa [initState] using h
  · intro escs
    refine ⟨?_, ?_⟩
    · have h := runAppends_length escs [] (by simp)
      simpa using h
    · have h := runAppends_suffix escs []
      simpa using h

/-- C4 (amended): every alert id equals the length of the loaded list
before truncation plus one, and truncation only drops from the front —
surviving alerts keep their records unchanged, so nothing is renumbered;
but the ids are NOT unique within the process lifetime: once the list
has reached 50 entries, an append and the append after it both assign
id 51. -/
theorem alert_id_assignment :
    (∀ (alerts : List Alert) (esc : Escalation),
        (mkAlert alerts esc).id = alerts.length + 1 ∧
        send_escalation_alert alerts esc =
          (alerts ++ [mkAlert alerts esc]).drop ((alerts.length + 1) - 50)) ∧
    (∀ (alerts : List Alert) (esc esc2 : Escalation),
        alerts.length = 50 →
        (mkAlert alerts esc).id = 51 ∧
        (mkAlert (send_escalation_alert alerts esc) esc2).id = 51) := by
  constructor
  · intro alerts esc
    exact ⟨rfl, send_escalation_alert_eq alerts esc⟩
  · intro alerts esc esc2 h
    have hlen := send_escalation_alert_length alerts esc
    rw [h] at hlen
    norm_num at hlen
    constructor
    · simp [mkAlert, h]
    · simp [mkAlert, hlen]

/-- C4 witness: from a full 50-alert file, the next alert gets id 51 and
the one after it gets id 51 again. -/
theorem alert_id_assignment_witness :
    (mkAlert (List.replicate 50 dummyAlert) esc1).id = 51 ∧
    (mkAlert (send_escalation_alert (List.replicate 50 dummyAlert) esc1)
        esc1).id = 51 :=
  alert_id_assignment.2 (List.replicate 50 dummyAlert) esc1 esc1 (by decide)

set_option maxRecDepth 4000 in
/-- C4 counterexample: 52 escalations sent from an empty alerts file by
one process produce alerts whose 51st and 52nd ids are both 51 — two
alerts created by the process share an id, refuting uniqueness. -/
theorem alert_id_reuse_counterexample :
    ((createdAlerts [] (List.replicate 52 esc1)).map Alert.id).drop 50 =
      [51, 51] := by
  decide

end ErrorHandlerModel
